import Mathlib

/-!
Verification development for the ConnectWise time-entry application
(`src/main.py`).  The Python source is shallowly embedded: pure helpers
become Lean functions, Python floats become `ℚ`, Python byte strings become
`List ℕ`, the key-value client storage becomes an association list, and
fallible operations (`int(...)`, `bytes.fromhex`, `datetime(...)`,
`response.json()`) become `Option`/`Except` values.  Outcomes of calls into
external libraries (PBKDF2/Fernet, the HTTP client, the JSON parser of a
response body) are modelled at their documented contracts and passed in as
explicit data.
-/

/-- Association-list update, modelling `page.client_storage.set_async(k, v)`
and `day_tracker[key] = value` in `src/main.py`: replace the first binding
of the key, or append a new binding. -/
def setKey {α : Type} : List (String × α) → String → α → List (String × α)
  | [], k, v => [(k, v)]
  | (k', v') :: rest, k, v =>
      if k' = k then (k, v) :: rest else (k', v') :: setKey rest k v

theorem lookup_setKey_self {α : Type} (st : List (String × α)) (k : String) (v : α) :
    (setKey st k v).lookup k = some v := by
  induction st with
  | nil => simp [setKey, List.lookup]
  | cons hd tl ih =>
      obtain ⟨k', v'⟩ := hd
      by_cases h : k' = k
      · subst h; simp [setKey, List.lookup]
      · have hb : (k == k') = false := beq_eq_false_iff_ne.mpr (Ne.symm h)
        simp [setKey, h, List.lookup, hb, ih]

theorem lookup_setKey_ne {α : Type} (st : List (String × α)) (k k' : String) (v : α)
    (h : k ≠ k') : (setKey st k' v).lookup k = st.lookup k := by
  have hb : (k == k') = false := beq_eq_false_iff_ne.mpr h
  induction st with
  | nil => simp [setKey, List.lookup, hb]
  | cons hd tl ih =>
      obtain ⟨k₀, v₀⟩ := hd
      by_cases h₀ : k₀ = k'
      · subst h₀; simp [setKey, List.lookup, hb]
      · by_cases h₁ : k = k₀
        · subst h₁
          have hb₀ : (k == k) = true := beq_self_eq_true k
          simp [setKey, h₀, List.lookup, hb₀]
        · have hb₁ : (k == k₀) = false := beq_eq_false_iff_ne.mpr h₁
          simp [setKey, h₀, List.lookup, hb₁, ih]

/-- Value of one digit character, used by the models of `int(...)` and
`bytes.fromhex`. -/
def digitsVal : List Char → Option ℕ
  | [] => none
  | ds =>
      if ds.all (fun c => c.isDigit) then
        some (ds.foldl (fun a c => a * 10 + (c.toNat - 48)) 0)
      else none

/-- Model of Python `int(s)` on a decimal string: optional surrounding
whitespace, optional sign, one or more digits; `none` models `ValueError`.
(Digit-group underscores are not modelled; the repository never produces
them.) -/
def pyIntParse (s : String) : Option ℤ :=
  match (s.trim).data with
  | '+' :: ds => (digitsVal ds).map (fun n => (n : ℤ))
  | '-' :: ds => (digitsVal ds).map (fun n => -(n : ℤ))
  | ds => (digitsVal ds).map (fun n => (n : ℤ))

/-- Model of `bytes.fromhex` on a space-free string (the repository only
feeds it `salt.hex()` round-trips): pairs of hex digits; `none` models
`ValueError`. -/
def hexDigit (c : Char) : Option ℕ :=
  if '0' ≤ c ∧ c ≤ '9' then some (c.toNat - 48)
  else if 'a' ≤ c ∧ c ≤ 'f' then some (c.toNat - 87)
  else if 'A' ≤ c ∧ c ≤ 'F' then some (c.toNat - 55)
  else none

def hexPairs : List Char → Option (List ℕ)
  | [] => some []
  | [_] => none
  | a :: b :: rest => do
      let ha ← hexDigit a
      let hb ← hexDigit b
      let r ← hexPairs rest
      pure ((ha * 16 + hb) :: r)

def hexParse (s : String) : Option (List ℕ) := hexPairs s.data

/-- Model of `bytes.hex()`: lowercase hex rendering of a byte list. -/
def hexChar (n : ℕ) : Char := "0123456789abcdef".data.getD n '0'

def hexStr (l : List ℕ) : String :=
  String.mk (l.flatMap (fun b => [hexChar (b / 16), hexChar (b % 16)]))

/-- Contract-level model of `cryptography.fernet.Fernet` as constructed in
`SecurityManager` (`src/main.py` lines 24-48): a token cipher where
decryption inverts encryption, and where strings below the minimum token
length never authenticate (a real Fernet token is at least 57 bytes of
version, timestamp, IV and HMAC, base64-encoded; undecryptable input makes
`Fernet.decrypt` raise, modelled as `none`). -/
structure FernetModel where
  encryptTok : String → String
  decryptTok : String → Option String
  roundtrip : ∀ s, decryptTok (encryptTok s) = some s
  decrypt_short : ∀ s, s.length < 8 → decryptTok s = none

/-- `SecurityManager` state (`src/main.py` lines 18-22): a salt (bytes) and
an optional Fernet instance. -/
structure SecurityManager where
  salt : List ℕ
  fernet : Option FernetModel

/-- `SecurityManager.encrypt` (`src/main.py` lines 54-57):
`if not self.fernet or not data: return data`, else the Fernet token. -/
def SecurityManager.encrypt (sm : SecurityManager) (data : String) : String :=
  match sm.fernet with
  | none => data
  | some f => if data = "" then data else f.encryptTok data

/-- `SecurityManager.decrypt` (`src/main.py` lines 59-65):
`if not self.fernet or not data: return data`, else try to decrypt and
return `""` when decryption fails. -/
def SecurityManager.decrypt (sm : SecurityManager) (data : String) : String :=
  match sm.fernet with
  | none => data
  | some f =>
      if data = "" then data
      else match f.decryptTok data with
        | some r => r
        | none => ""

/-- `SecurityManager.initialize` (`src/main.py` lines 39-52).  The PBKDF2
key derivation plus `Fernet(key)` construction is total and is abstracted
as `derive`; `fresh` is the outcome of `secrets.token_bytes(16)` used when
no salt is supplied.  An invalid hex salt makes `bytes.fromhex` raise,
which the `except` clause turns into `False` with the state unchanged. -/
def SecurityManager.initPin (derive : String → List ℕ → FernetModel)
    (sm : SecurityManager) (pin : String) (salt_hex : Option String)
    (fresh : List ℕ) : Bool × SecurityManager :=
  match salt_hex with
  | some sh =>
      if sh = "" then (true, { salt := fresh, fernet := some (derive pin fresh) })
      else
        match hexParse sh with
        | some salt => (true, { salt := salt, fernet := some (derive pin salt) })
        | none => (false, sm)
  | none => (true, { salt := fresh, fernet := some (derive pin fresh) })

/-- A concrete instance of the Fernet contract, used to evaluate the
cipher at concrete inputs: an 8-character header plays the role of the
token framing, and anything without that framing fails to decrypt. -/
def fernetPfx : List Char := ['g', 'A', 'A', 'A', 'A', 'A', 'A', 'A']

def F0 : FernetModel where
  encryptTok s := String.mk (fernetPfx ++ s.data)
  decryptTok s :=
    if 8 ≤ s.length ∧ s.data.take 8 = fernetPfx then some (String.mk (s.data.drop 8))
    else none
  roundtrip := by
    intro s
    dsimp only
    have htake : (fernetPfx ++ s.data).take 8 = fernetPfx := by
      have h8 : (8 : ℕ) = fernetPfx.length := rfl
      rw [h8, List.take_left]
    have hdrop : (fernetPfx ++ s.data).drop 8 = s.data := by
      have h8 : (8 : ℕ) = fernetPfx.length := rfl
      rw [h8, List.drop_left]
    have hlen : 8 ≤ (String.mk (fernetPfx ++ s.data)).length := by
      show 8 ≤ (fernetPfx ++ s.data).length
      simp [fernetPfx]
    rw [if_pos ⟨hlen, htake⟩]
    rw [show ((String.mk (fernetPfx ++ s.data)).data.drop 8) = s.data from hdrop]
  decrypt_short := by
    intro s h
    dsimp only
    have hc : ¬(8 ≤ s.length ∧ s.data.take 8 = fernetPfx) := by
      rintro ⟨h8, -⟩
      omega
    rw [if_neg hc]

/-- A `SecurityManager` holding the concrete cipher. -/
def sm0 : SecurityManager := ⟨[], some F0⟩

/-! ## Calendar and `datetime` model -/

/-- Truncation toward zero, modelling Python `int()` on a number. -/
def pyTrunc (q : ℚ) : ℤ := if 0 ≤ q then ⌊q⌋ else -⌊-q⌋

/-- Model of Python `q % 1` on a number: the remainder takes the sign of
the divisor, so this is the fractional part in `[0, 1)`. -/
def frac1 (q : ℚ) : ℚ := q - ⌊q⌋

/-- Proleptic-Gregorian day number (days since 1970-01-01) of a civil
date, the arithmetic underlying `datetime`. -/
def daysFromCivil (y m d : ℤ) : ℤ :=
  let y' := y - (if m ≤ 2 then 1 else 0)
  let era := Int.ediv y' 400
  let yoe := y' - era * 400
  let mp := m + (if 2 < m then -3 else 9)
  let doy := Int.ediv (153 * mp + 2) 5 + d - 1
  let doe := yoe * 365 + Int.ediv yoe 4 - Int.ediv yoe 100 + doy
  era * 146097 + doe - 719468

/-- Civil date `(year, month, day)` of a day number. -/
def civilFromDays (z : ℤ) : ℤ × ℤ × ℤ :=
  let z' := z + 719468
  let era := Int.ediv z' 146097
  let doe := z' - era * 146097
  let yoe := Int.ediv (doe - Int.ediv doe 1460 + Int.ediv doe 36524 - Int.ediv doe 146096) 365
  let y := yoe + era * 400
  let doy := doe - (365 * yoe + Int.ediv yoe 4 - Int.ediv yoe 100)
  let mp := Int.ediv (5 * doy + 2) 153
  let d := doy - Int.ediv (153 * mp + 2) 5 + 1
  let m := mp + (if mp < 10 then 3 else -9)
  (y + (if m ≤ 2 then 1 else 0), m, d)

def isLeap (y : ℤ) : Bool :=
  (y % 4 = 0 ∧ y % 100 ≠ 0) ∨ y % 400 = 0

def daysInMonth (y m : ℤ) : ℤ :=
  if m = 2 then (if isLeap y then 29 else 28)
  else if m = 4 ∨ m = 6 ∨ m = 9 ∨ m = 11 then 30
  else 31

/-- Validity of the `year, month, day` arguments of `datetime(...)`. -/
def validYMD (y m d : ℤ) : Prop :=
  1 ≤ y ∧ y ≤ 9999 ∧ 1 ≤ m ∧ m ≤ 12 ∧ 1 ≤ d ∧ d ≤ daysInMonth y m

instance (y m d : ℤ) : Decidable (validYMD y m d) := by
  unfold validYMD; infer_instance

/-- Model of `datetime(y, m, d, hh, mm, 0)` (`src/main.py` lines 196-209)
as seconds since 1970-01-01T00:00:00: `none` models the `ValueError`
raised on out-of-range arguments. -/
def pyDatetimeSecs (y m d hh mm : ℤ) : Option ℤ :=
  if validYMD y m d ∧ 0 ≤ hh ∧ hh < 24 ∧ 0 ≤ mm ∧ mm < 60 then
    some (daysFromCivil y m d * 86400 + hh * 3600 + mm * 60)
  else none

/-- Earliest representable `datetime` (0001-01-01 00:00:00), in seconds. -/
def pyMinSecs : ℤ := daysFromCivil 1 1 1 * 86400

/-- Latest whole second of `datetime.max` (9999-12-31 23:59:59). -/
def pyMaxSecs : ℤ := daysFromCivil 9999 12 31 * 86400 + 86399

/-- Seconds of `timedelta(hours=o)` (`src/main.py` lines 204 and 211).
`timedelta` is exact to microseconds; the floor is exact for every offset
that is a whole number of seconds, which covers all real timezone
offsets. -/
def offSecs (o : ℚ) : ℤ := ⌊o * 3600⌋

/-- Model of `t - timedelta(hours=o)` on a `datetime`: plain subtraction,
with `none` modelling the `OverflowError` raised when the result leaves
the representable `datetime` range. -/
def pySubHours (t : ℤ) (o : ℚ) : Option ℤ :=
  let r := t - offSecs o
  if pyMinSecs ≤ r ∧ r ≤ pyMaxSecs then some r else none

/-- Decimal rendering of a natural number, zero-padded to `width`. -/
def padNat (width n : ℕ) : String :=
  let s := toString n
  String.mk (List.replicate (width - s.length) '0') ++ s

def pad2 (n : ℤ) : String := padNat 2 n.toNat

def pad4 (n : ℤ) : String := padNat 4 n.toNat

/-- Model of `strftime("%Y-%m-%dT%H:%M:%SZ")` (`src/main.py` lines
214-215) on a `datetime` given as seconds since 1970-01-01. -/
def formatTS (t : ℤ) : String :=
  let days := Int.ediv t 86400
  let sod := Int.emod t 86400
  let c := civilFromDays days
  pad4 c.1 ++ "-" ++ pad2 c.2.1 ++ "-" ++ pad2 c.2.2 ++ "T" ++
    pad2 (Int.ediv sod 3600) ++ ":" ++ pad2 (Int.ediv (Int.emod sod 3600) 60) ++ ":" ++
    pad2 (Int.emod sod 60) ++ "Z"

/-- Model of `strftime("%Y-%m-%d")`, the per-day tracker key
(`src/main.py` line 417). -/
def formatDateKey (y m d : ℤ) : String :=
  pad4 y ++ "-" ++ pad2 m ++ "-" ++ pad2 d

/-- The timestamp computation of `ConnectWiseAPI.post_time_entry`
(`src/main.py` lines 191-215): build the local start and end `datetime`
(minutes truncated from the fractional hour by `int(...)`), subtract the
timezone offset, and format both as UTC strings.  `none` models an
exception from a `datetime` constructor or an overflowing subtraction. -/
def computeTimes (y m d : ℤ) (startHour hours offset : ℚ) : Option (String × String) :=
  let endHour := startHour + hours
  match pyDatetimeSecs y m d (pyTrunc startHour) (pyTrunc (frac1 startHour * 60)) with
  | none => none
  | some s =>
      match pySubHours s offset with
      | none => none
      | some s' =>
          match pyDatetimeSecs y m d (pyTrunc endHour) (pyTrunc (frac1 endHour * 60)) with
          | none => none
          | some e =>
              (pySubHours e offset).map (fun e' => (formatTS s', formatTS e'))

/-- Seconds since 1970-01-01 of "date `y-m-d` at the clock time the code
builds for fractional hour `q`": hour `int(q)`, minute `int((q % 1)*60)`,
zero seconds. -/
def civilSecs (y m d : ℤ) (q : ℚ) : ℤ :=
  daysFromCivil y m d * 86400 + pyTrunc q * 3600 + pyTrunc (frac1 q * 60) * 60

/-! ## Configuration, client storage, and authentication -/

/-- A value in `page.client_storage`: the repository stores strings and
one float (`timezone_offset`). -/
inductive StoredVal
  | s (v : String)
  | f (q : ℚ)
deriving DecidableEq

/-- The local client storage, keyed by setting name. -/
def Storage : Type := List (String × StoredVal)

/-- String read from storage: `client_storage.get_async` for a key the
repository wrote as a string. -/
def getStr (st : Storage) (k : String) : Option String :=
  match List.lookup k st with
  | some (StoredVal.s v) => some v
  | _ => none

/-- Model of Python `x or dflt` for an optional string: `None` and `""`
are falsy. -/
def pyOr (v : Option String) (dflt : String) : String :=
  match v with
  | some s => if s = "" then dflt else s
  | none => dflt

/-- `ConnectWiseConfig` fields (`src/main.py` lines 67-82). -/
structure ConnectWiseConfig where
  is_locked : Bool
  company_id : String
  public_key : String
  private_key : String
  site_url : String
  member_id : String
  work_type : String
  billable_option : String
  client_id : String
  timezone_offset : ℚ
deriving DecidableEq

/-- `ConnectWiseConfig.load` (`src/main.py` lines 93-117): read every
setting with its default, decrypting the credential keys only when the
configuration is unlocked.  `timezone_offset` is `float(stored or -4.0)`;
the repository only ever stores it as a float, and the `except` clause
falls back to `-4.0`. -/
def ConnectWiseConfig.load (storage : Storage) (sec : SecurityManager)
    (is_locked : Bool) : ConnectWiseConfig :=
  let enc_public := pyOr (getStr storage "public_key") ""
  let enc_private := pyOr (getStr storage "private_key") ""
  { is_locked := is_locked
    company_id := pyOr (getStr storage "company_id") "Intwo"
    public_key := if is_locked then enc_public else sec.decrypt enc_public
    private_key := if is_locked then enc_private else sec.decrypt enc_private
    site_url := pyOr (getStr storage "site_url") "connect.intwo.cloud"
    member_id := pyOr (getStr storage "member_id") ""
    work_type := pyOr (getStr storage "work_type") "Remote-Standard"
    billable_option := pyOr (getStr storage "billable_option") "DoNotBill"
    client_id := pyOr (getStr storage "client_id") "4332716b-7270-470d-b7c6-9c036f760e6f"
    timezone_offset :=
      match List.lookup "timezone_offset" storage with
      | some (StoredVal.f q) => q
      | _ => -4 }

/-- `ConnectWiseConfig.unlock` (`src/main.py` lines 84-91): read the
stored salt, initialize the security manager with it, and on success clear
the lock and reload the configuration. -/
def ConnectWiseConfig.unlock (derive : String → List ℕ → FernetModel)
    (storage : Storage) (cfg : ConnectWiseConfig) (sec : SecurityManager)
    (pin : String) (fresh : List ℕ) : Bool × ConnectWiseConfig × SecurityManager :=
  let salt_hex := getStr storage "security_salt"
  match SecurityManager.initPin derive sec pin salt_hex fresh with
  | (true, sec') => (true, ConnectWiseConfig.load storage sec' false, sec')
  | (false, sec') => (false, cfg, sec')

/-- `ConnectWiseConfig.save` (`src/main.py` lines 119-140): write every
setting; write the salt only when one is present; encrypt and write the
credential keys only when the configuration is unlocked (the
`billable_option` write is duplicated in the source). -/
def ConnectWiseConfig.save (cfg : ConnectWiseConfig) (sec : SecurityManager)
    (st : Storage) : Storage :=
  let st := setKey st "company_id" (StoredVal.s cfg.company_id)
  let st := if sec.salt ≠ [] then setKey st "security_salt" (StoredVal.s (hexStr sec.salt)) else st
  let st :=
    if cfg.is_locked then st
    else
      let st := setKey st "public_key" (StoredVal.s (sec.encrypt cfg.public_key))
      setKey st "private_key" (StoredVal.s (sec.encrypt cfg.private_key))
  let st := setKey st "site_url" (StoredVal.s cfg.site_url)
  let st := setKey st "member_id" (StoredVal.s cfg.member_id)
  let st := setKey st "work_type" (StoredVal.s cfg.work_type)
  let st := setKey st "billable_option" (StoredVal.s cfg.billable_option)
  let st := setKey st "billable_option" (StoredVal.s cfg.billable_option)
  let st := setKey st "client_id" (StoredVal.s cfg.client_id)
  setKey st "timezone_offset" (StoredVal.f cfg.timezone_offset)

/-- UTF-8 encoding of one character, as byte values (models `str.encode`). -/
def utf8EncodeCharNat (c : Char) : List ℕ :=
  let n := c.toNat
  if n < 128 then [n]
  else if n < 2048 then [192 + n / 64, 128 + n % 64]
  else if n < 65536 then [224 + n / 4096, 128 + (n / 64) % 64, 128 + n % 64]
  else [240 + n / 262144, 128 + (n / 4096) % 64, 128 + (n / 64) % 64, 128 + n % 64]

def utf8Bytes (s : String) : List ℕ := s.data.flatMap utf8EncodeCharNat

/-- The standard base64 alphabet, as used by `base64.b64encode`. -/
def b64chars : List Char :=
  "ABCDEFGHIJKLMNOPQRSTUVWXYZabcdefghijklmnopqrstuvwxyz0123456789+/".data

def b64char (n : ℕ) : Char := b64chars.getD n 'A'

def b64encodeBytes : List ℕ → List Char
  | [] => []
  | [a] => [b64char (a / 4), b64char (a % 4 * 16), '=', '=']
  | [a, b] => [b64char (a / 4), b64char (a % 4 * 16 + b / 16), b64char (b % 16 * 4), '=']
  | a :: b :: c :: rest =>
      b64char (a / 4) :: b64char (a % 4 * 16 + b / 16) ::
        b64char (b % 16 * 4 + c / 64) :: b64char (c % 64) :: b64encodeBytes rest

/-- Model of `base64.b64encode(x).decode()`. -/
def b64encode (l : List ℕ) : String := String.mk (b64encodeBytes l)

/-- `ConnectWiseConfig.get_auth_header` (`src/main.py` lines 146-149):
base64 of `f"{company_id}+{public_key}:{private_key}"`. -/
def ConnectWiseConfig.get_auth_header (cfg : ConnectWiseConfig) : String :=
  b64encode (utf8Bytes (cfg.company_id ++ "+" ++ cfg.public_key ++ ":" ++ cfg.private_key))

/-- `ConnectWiseAPI.get_headers` (`src/main.py` lines 178-184). -/
def ConnectWiseAPI.get_headers (cfg : ConnectWiseConfig) : List (String × String) :=
  [("Authorization", "Basic " ++ cfg.get_auth_header),
   ("Content-Type", "application/json"),
   ("clientId", cfg.client_id)]

/-! ## Time entries, the HTTP POST, and response handling -/

/-- `TimeEntry` (`src/main.py` lines 152-169): the fields the POST reads
(the random short id and mutable status are not consumed by any modelled
operation). -/
structure TimeEntry where
  ticket_id : String
  hours : ℚ
  description : String
  dateY : ℤ
  dateM : ℤ
  dateD : ℤ
  add_to_detail : Bool
  add_to_internal : Bool
  add_to_resolution : Bool
  email_resource : Bool
  email_contact : Bool
  email_cc : Bool
deriving DecidableEq

/-- The JSON payload of the POST (`src/main.py` lines 217-234). -/
structure Payload where
  company : String
  chargeToId : ℤ
  chargeToType : String
  member : String
  actualHours : ℚ
  billableOption : String
  workTypeName : String
  notes : String
  timeStart : String
  timeEnd : String
  addToDetailDescriptionFlag : Bool
  addToInternalAnalysisFlag : Bool
  addToResolutionFlag : Bool
  emailResourceFlag : Bool
  emailContactFlag : Bool
  emailCcFlag : Bool
deriving DecidableEq

/-- The part of `post_time_entry` that runs before the request
(`src/main.py` lines 191-234): compute the timestamps, convert the ticket
id with `int(...)`, and assemble the payload.  `Except.error` carries the
message of the exception the corresponding Python step raises. -/
def buildPayload (cfg : ConnectWiseConfig) (e : TimeEntry) (startHour : ℚ) :
    Except String Payload :=
  match computeTimes e.dateY e.dateM e.dateD startHour e.hours cfg.timezone_offset with
  | none => Except.error "ValueError: datetime argument out of range"
  | some (ts, te) =>
      match pyIntParse e.ticket_id with
      | none => Except.error ("invalid literal for int() with base 10: " ++ e.ticket_id)
      | some cid =>
          Except.ok
            { company := cfg.company_id
              chargeToId := cid
              chargeToType := "ServiceTicket"
              member := cfg.member_id
              actualHours := e.hours
              billableOption := cfg.billable_option
              workTypeName := cfg.work_type
              notes := e.description
              timeStart := ts
              timeEnd := te
              addToDetailDescriptionFlag := e.add_to_detail
              addToInternalAnalysisFlag := e.add_to_internal
              addToResolutionFlag := e.add_to_resolution
              emailResourceFlag := e.email_resource
              emailContactFlag := e.email_contact
              emailCcFlag := e.email_cc }

/-- Outcome of `response.json()` on a non-empty body: a JSON object (its
string-rendered fields), a JSON value that is not an object (so `.get`
raises `AttributeError` with message `err`), or a body that is not JSON
(so `.json()` raises with message `err`). -/
inductive JsonOutcome
  | obj (fields : List (String × String))
  | nonObj (err : String)
  | malformed (err : String)
deriving DecidableEq

/-- An HTTP response as `post_time_entry` consumes it: status code, raw
text, and the outcome of parsing the text as JSON. -/
structure HttpResponse where
  statusCode : ℤ
  text : String
  parse : JsonOutcome
deriving DecidableEq

/-- Outcome of `client.post(...)`: a response, or a raised transport
error (timeout, connection failure) with message `err`. -/
inductive NetOutcome
  | response (r : HttpResponse)
  | netError (err : String)
deriving DecidableEq

/-- The response branch of `post_time_entry` (`src/main.py` lines
245-250): 200/201 succeed; otherwise the message is taken from the JSON
`message` field of the parsed body (`{}` when the body is empty), with
the raw text as fallback; a body that fails to parse as a JSON object
makes this step raise. -/
def handleResponse (r : HttpResponse) : Except String (Bool × String) :=
  if r.statusCode = 200 ∨ r.statusCode = 201 then
    Except.ok (true, "Entrada creada exitosamente")
  else
    match (if r.text = "" then JsonOutcome.obj [] else r.parse) with
    | JsonOutcome.obj fields =>
        Except.ok (false, "Error " ++ toString r.statusCode ++ ": " ++
          ((List.lookup "message" fields).getD r.text))
    | JsonOutcome.nonObj err => Except.error err
    | JsonOutcome.malformed err => Except.error err

/-- The body of `post_time_entry` without its enclosing `try`
(`src/main.py` lines 188-250): any raised exception surfaces as
`Except.error`. -/
def postTimeEntryBody (cfg : ConnectWiseConfig) (e : TimeEntry) (startHour : ℚ)
    (net : NetOutcome) : Except String (Bool × String) :=
  match buildPayload cfg e startHour with
  | Except.error msg => Except.error msg
  | Except.ok _ =>
      match net with
      | NetOutcome.netError msg => Except.error msg
      | NetOutcome.response r => handleResponse r

/-- `ConnectWiseAPI.post_time_entry` (`src/main.py` lines 186-253): the
whole body runs under `try`, and `except Exception as e` converts any
exception into `(False, f"Error: {str(e)}")`. -/
def post_time_entry (cfg : ConnectWiseConfig) (e : TimeEntry) (startHour : ℚ)
    (net : NetOutcome) : Bool × String :=
  match postTimeEntryBody cfg e startHour net with
  | Except.ok p => p
  | Except.error msg => (false, "Error: " ++ msg)

/-! ## The submit flow and the per-day tracker -/

/-- The form state `submit_entry` reads (`src/main.py` lines 389-452).
`date_parse` is the outcome of `datetime.strptime(date_field.value,
"%Y-%m-%d")` and `hours_parse` the outcome of `float(hours_field.value)`;
both parsers are standard-library calls whose results are taken as
inputs. -/
structure SubmitForm where
  ticket_field : String
  date_parse : Option (ℤ × ℤ × ℤ)
  hours_parse : Option ℚ
  description_field : String
  start_time_field : String
deriving DecidableEq

inductive SubmitOutcome
  | rejected (msg : String)
  | submitted (startHour hours : ℚ) (dateKey : String)
deriving DecidableEq

/-- The manual start-time override (`src/main.py` lines 423-432): if the
field contains `":"`, parse `HH:MM` into `h + m/60`; any parse failure is
swallowed and keeps the automatic start. -/
def startOverride (s : String) : Option ℚ :=
  let st := s.trim
  if st.contains ':' then
    let parts := st.splitOn ":"
    match pyIntParse (parts.getD 0 ""), pyIntParse (parts.getD 1 "") with
    | some h, some m => some ((h : ℚ) + (m : ℚ) / 60)
    | _, _ => none
  else none

/-- `submit_entry` up to (and including) the tracker update
(`src/main.py` lines 389-441): the validation chain with its user-facing
messages, then the tracker bookkeeping.  The API call happens only on a
`submitted` outcome, after the tracker has already been advanced. -/
def submitEntry (tracker : List (String × ℚ)) (f : SubmitForm) :
    SubmitOutcome × List (String × ℚ) :=
  let ticket_id := f.ticket_field.trim
  if ticket_id = "" then (SubmitOutcome.rejected "Por favor ingresa un Ticket ID", tracker)
  else
    match f.date_parse with
    | none => (SubmitOutcome.rejected "Por favor ingresa una fecha válida (YYYY-MM-DD)", tracker)
    | some (y, m, d) =>
        match f.hours_parse with
        | none => (SubmitOutcome.rejected "Por favor ingresa un valor numérico válido", tracker)
        | some hours =>
            if hours ≤ 0 ∨ 8 < hours then
              (SubmitOutcome.rejected "Las horas deben estar entre 0 y 8", tracker)
            else
              let description := f.description_field.trim
              if description = "" then
                (SubmitOutcome.rejected "Por favor ingresa una descripción", tracker)
              else
                let date_key := formatDateKey y m d
                let tracker1 :=
                  if (List.lookup date_key tracker).isNone then setKey tracker date_key 8
                  else tracker
                let auto := (List.lookup date_key tracker1).getD 8
                let start_hour := (startOverride f.start_time_field).getD auto
                let tracker2 := setKey tracker1 date_key (start_hour + hours)
                (SubmitOutcome.submitted start_hour hours date_key, tracker2)

/-! ## Claim C1: the credential cipher round trip -/

/-- Claim C1 (counterexample): with an initialized `SecurityManager`,
`encrypt(decrypt(x)) == x` fails at `x = "a"`: `"a"` is not a decryptable
token, so `decrypt` returns `""` and `encrypt` passes `""` through,
giving `""` rather than `"a"`. -/
theorem C1_encrypt_decrypt_cex :
    SecurityManager.encrypt sm0 (SecurityManager.decrypt sm0 "a") = "" ∧
      ("a" : String) ≠ "" := by
  constructor
  · with_unfolding_all decide
  · with_unfolding_all decide

/-- Claim C1 (amended): for an initialized `SecurityManager` (a fixed PIN,
hence a fixed Fernet instance), the round trip in the other composition
order holds: `decrypt(encrypt(x)) == x` for every string `x`. -/
theorem C1_decrypt_encrypt_roundtrip (salt : List ℕ) (f : FernetModel) (x : String) :
    SecurityManager.decrypt ⟨salt, some f⟩ (SecurityManager.encrypt ⟨salt, some f⟩ x) = x := by
  show SecurityManager.decrypt ⟨salt, some f⟩ (if x = "" then x else f.encryptTok x) = x
  by_cases hx : x = ""
  · subst hx
    simp [SecurityManager.decrypt]
  · rw [if_neg hx]
    have hne : f.encryptTok x ≠ "" := by
      intro h0
      have hshort : (f.encryptTok x).length < 8 := by
        rw [h0]; decide
      have := f.decrypt_short (f.encryptTok x) hshort
      rw [f.roundtrip x] at this
      exact Option.noConfusion this
    show (if f.encryptTok x = "" then f.encryptTok x
      else match f.decryptTok (f.encryptTok x) with
        | some r => r
        | none => "") = x
    rw [if_neg hne, f.roundtrip x]

/-! ## Claims C3, C4, C7: the submit validation chain and the tracker -/

/-- Helper: an accepted submit resolves to a `submitted` outcome and one
tracker write at the date key. -/
theorem submitEntry_accepted (tracker : List (String × ℚ)) (f : SubmitForm)
    (y m d : ℤ) (q : ℚ)
    (ht : f.ticket_field.trim ≠ "")
    (hd : f.date_parse = some (y, m, d))
    (hh : f.hours_parse = some q)
    (hq1 : 0 < q) (hq2 : q ≤ 8)
    (hdesc : f.description_field.trim ≠ "") :
    submitEntry tracker f =
      (SubmitOutcome.submitted
          ((startOverride f.start_time_field).getD
            ((List.lookup (formatDateKey y m d) tracker).getD 8)) q (formatDateKey y m d),
        setKey
          (if (List.lookup (formatDateKey y m d) tracker).isNone then
            setKey tracker (formatDateKey y m d) 8
          else tracker)
          (formatDateKey y m d)
          ((startOverride f.start_time_field).getD
            ((List.lookup (formatDateKey y m d) tracker).getD 8) + q)) := by
  have hrange : ¬(q ≤ 0 ∨ 8 < q) := by
    push_neg
    exact ⟨hq1, hq2⟩
  unfold submitEntry
  rw [if_neg ht, hd, hh]
  simp only
  rw [if_neg hrange, if_neg hdesc]
  cases hcase : List.lookup (formatDateKey y m d) tracker with
  | none => simp [hcase, lookup_setKey_self]
  | some v => simp [hcase]

/-- Claim C3: once the hours field parses, a value outside `(0, 8]` stops
the submit with the user-facing range error and leaves the tracker
untouched (the API call only happens on a `submitted` outcome, which is
not produced); a value inside `(0, 8]` passes this check, never producing
the range rejection or the numeric-parse rejection. -/
theorem C3_hours_range (tracker : List (String × ℚ)) (f : SubmitForm) (q : ℚ)
    (ht : f.ticket_field.trim ≠ "")
    (hd : f.date_parse.isSome = true)
    (hh : f.hours_parse = some q) :
    ((q ≤ 0 ∨ 8 < q) →
      submitEntry tracker f =
        (SubmitOutcome.rejected "Las horas deben estar entre 0 y 8", tracker)) ∧
    (0 < q → q ≤ 8 →
      (submitEntry tracker f).1 ≠ SubmitOutcome.rejected "Las horas deben estar entre 0 y 8" ∧
      (submitEntry tracker f).1 ≠ SubmitOutcome.rejected "Por favor ingresa un valor numérico válido") := by
  obtain ⟨⟨y, m, d⟩, hdp⟩ := Option.isSome_iff_exists.mp hd
  constructor
  · intro hr
    unfold submitEntry
    rw [if_neg ht, hdp, hh]
    simp only
    rw [if_pos hr]
  · intro h1 h2
    have hrange : ¬(q ≤ 0 ∨ 8 < q) := by
      push_neg
      exact ⟨h1, h2⟩
    unfold submitEntry
    rw [if_neg ht, hdp, hh]
    simp only
    rw [if_neg hrange]
    by_cases hdesc : f.description_field.trim = ""
    · rw [if_pos hdesc]
      refine ⟨?_, ?_⟩ <;> simp
    · rw [if_neg hdesc]
      refine ⟨?_, ?_⟩ <;> simp

/-- A form with hours 9: valid ticket, date and description. -/
def formHours9 : SubmitForm := ⟨"123", some (2024, 5, 15), some 9, "x", "08:00"⟩

/-- Witness for C3 at a concrete out-of-range input. -/
theorem C3_hours_range_witness :
    submitEntry [] formHours9 =
      (SubmitOutcome.rejected "Las horas deben estar entre 0 y 8", []) :=
  (C3_hours_range [] formHours9 9 (by with_unfolding_all decide)
    (by with_unfolding_all decide) (by with_unfolding_all decide)).1 (by norm_num)

/-- Tracker at 12.0 for the date, manual start field reset to 08:00. -/
def trackerAt12 : List (String × ℚ) := [("2024-05-15", 12)]

def formManual8 : SubmitForm := ⟨"123", some (2024, 5, 15), some 1, "x", "08:00"⟩

/-- Claim C4 (counterexample): an accepted submission whose manual
start-time field parses does not add the entered hours to the previous
tracker value: with the tracker at 12.0 and the start field at 08:00, one
accepted 1-hour entry leaves the tracker at 9.0 — not 12.0 + 1, and
strictly below its previous value, so the tracker is not monotone. -/
theorem C4_tracker_cex :
    (submitEntry trackerAt12 formManual8).1 = SubmitOutcome.submitted 8 1 "2024-05-15" ∧
    List.lookup "2024-05-15" (submitEntry trackerAt12 formManual8).2 = some 9 ∧
    ¬((9 : ℚ) = 12 + 1) ∧ (9 : ℚ) < 12 := by
  refine ⟨?_, ?_, ?_, ?_⟩
  · with_unfolding_all decide
  · with_unfolding_all decide
  · norm_num
  · norm_num

/-- Claim C4 (amended): after an accepted submission the tracker value for
the date equals the effective start hour plus the entered hours, where the
effective start hour is the manual start-time field when it parses as
`HH:MM` and otherwise the stored slot (default 8.0); in particular, when
no manual override parses, the tracker advances by exactly the entered
hours from its previous value. -/
theorem C4_tracker_update (tracker : List (String × ℚ)) (f : SubmitForm)
    (y m d : ℤ) (q : ℚ)
    (ht : f.ticket_field.trim ≠ "")
    (hd : f.date_parse = some (y, m, d))
    (hh : f.hours_parse = some q)
    (hq1 : 0 < q) (hq2 : q ≤ 8)
    (hdesc : f.description_field.trim ≠ "") :
    List.lookup (formatDateKey y m d) (submitEntry tracker f).2 =
      some ((startOverride f.start_time_field).getD
        ((List.lookup (formatDateKey y m d) tracker).getD 8) + q) ∧
    (startOverride f.start_time_field = none →
      List.lookup (formatDateKey y m d) (submitEntry tracker f).2 =
        some ((List.lookup (formatDateKey y m d) tracker).getD 8 + q)) := by
  rw [submitEntry_accepted tracker f y m d q ht hd hh hq1 hq2 hdesc]
  constructor
  · exact lookup_setKey_self _ _ _
  · intro hov
    rw [hov]
    simpa using lookup_setKey_self _ _ _

/-- A form whose start-time field is empty (no override parses). -/
def formAuto : SubmitForm := ⟨"123", some (2024, 5, 15), some 2, "x", ""⟩

set_option maxRecDepth 8000 in
/-- Witness for C4 (amended) at a concrete input with no manual
override. -/
theorem C4_tracker_update_witness :
    List.lookup (formatDateKey 2024 5 15) (submitEntry [] formAuto).2 =
      some ((List.lookup (formatDateKey 2024 5 15) ([] : List (String × ℚ))).getD 8 + 2) :=
  (C4_tracker_update [] formAuto 2024 5 15 2 (by with_unfolding_all decide)
    (by with_unfolding_all decide) (by with_unfolding_all decide) (by norm_num)
    (by norm_num) (by with_unfolding_all decide)).2 (by with_unfolding_all decide)

/-- Manual start 23:00 with 8 entered hours. -/
def formLate : SubmitForm := ⟨"123", some (2024, 5, 15), some 8, "x", "23:00"⟩

/-- Claim C7 (counterexample): an accepted submission can store a tracker
value outside `[0, 24)`: starting at 23:00 with 8 hours stores 31.0. -/
theorem C7_tracker_cex :
    (submitEntry [] formLate).1 = SubmitOutcome.submitted 23 8 "2024-05-15" ∧
    List.lookup "2024-05-15" (submitEntry [] formLate).2 = some 31 ∧
    ¬((0 : ℚ) ≤ 31 ∧ (31 : ℚ) < 24) := by
  refine ⟨?_, ?_, ?_⟩
  · with_unfolding_all decide
  · with_unfolding_all decide
  · norm_num

/-- Claim C7 (amended): after an accepted submission the tracker value for
the date lies in `(eff, eff + 8]` where `eff` is the effective start hour;
it is not confined to `[0, 24)`, since `eff` itself is unvalidated. -/
theorem C7_tracker_bound (tracker : List (String × ℚ)) (f : SubmitForm)
    (y m d : ℤ) (q : ℚ)
    (ht : f.ticket_field.trim ≠ "")
    (hd : f.date_parse = some (y, m, d))
    (hh : f.hours_parse = some q)
    (hq1 : 0 < q) (hq2 : q ≤ 8)
    (hdesc : f.description_field.trim ≠ "") :
    ∃ v : ℚ, List.lookup (formatDateKey y m d) (submitEntry tracker f).2 = some v ∧
      (startOverride f.start_time_field).getD
        ((List.lookup (formatDateKey y m d) tracker).getD 8) < v ∧
      v ≤ (startOverride f.start_time_field).getD
        ((List.lookup (formatDateKey y m d) tracker).getD 8) + 8 := by
  rw [submitEntry_accepted tracker f y m d q ht hd hh hq1 hq2 hdesc]
  refine ⟨_ + q, lookup_setKey_self _ _ _, ?_, ?_⟩
  · linarith
  · linarith

set_option maxRecDepth 8000 in
/-- Witness for C7 (amended) at the 23:00 / 8-hour input. -/
theorem C7_tracker_bound_witness :
    ∃ v : ℚ, List.lookup (formatDateKey 2024 5 15) (submitEntry [] formLate).2 = some v ∧
      (startOverride formLate.start_time_field).getD
        ((List.lookup (formatDateKey 2024 5 15) ([] : List (String × ℚ))).getD 8) < v ∧
      v ≤ (startOverride formLate.start_time_field).getD
        ((List.lookup (formatDateKey 2024 5 15) ([] : List (String × ℚ))).getD 8) + 8 :=
  C7_tracker_bound [] formLate 2024 5 15 8 (by with_unfolding_all decide)
    (by with_unfolding_all decide) (by with_unfolding_all decide) (by norm_num)
    (by norm_num) (by with_unfolding_all decide)

/-! ## Claim C2: the payload timestamps -/

/-- Helper: the computed minute `int((q % 1) * 60)` always lies in
`[0, 60)`. -/
theorem pyTrunc_frac_bounds (q : ℚ) :
    0 ≤ pyTrunc (frac1 q * 60) ∧ pyTrunc (frac1 q * 60) < 60 := by
  have h0 : (0 : ℚ) ≤ frac1 q := by
    unfold frac1
    have := Int.floor_le q
    linarith
  have h1 : frac1 q < 1 := by
    unfold frac1
    have := Int.lt_floor_add_one q
    linarith
  have h2 : (0 : ℚ) ≤ frac1 q * 60 := by nlinarith
  have h3 : frac1 q * 60 < 60 := by nlinarith
  unfold pyTrunc
  rw [if_pos h2]
  refine ⟨Int.floor_nonneg.mpr h2, Int.floor_lt.mpr ?_⟩
  push_cast
  exact h3

/-- Modelled from the spec's words (claim C2): the timestamp the claim
asserts, "date `d` at hour `h` minus `o` hours, formatted as an ISO-8601
UTC string" — the exact instant `h` hours into the day, shifted by the
offset (the floor is exact whenever `(h - o) * 3600` is an integer, as at
every input used below). -/
def claimedTimeStampAt (y m d : ℤ) (h o : ℚ) : String :=
  formatTS (daysFromCivil y m d * 86400 + Rat.floor ((h - o) * 3600))

/-- Claim C2 (counterexample): at start hour `8 + 1/120` (8h00m30s) on
2024-05-15 with offset -4, the code truncates the fractional hour to
whole minutes, sending `...T12:00:00Z`, while the claimed exact
conversion is `...T12:00:30Z`. -/
theorem C2_timestamps_cex :
    computeTimes 2024 5 15 (8 + 1/120) 1 (-4) =
      some ("2024-05-15T12:00:00Z", "2024-05-15T13:00:00Z") ∧
    claimedTimeStampAt 2024 5 15 (8 + 1/120) (-4) = "2024-05-15T12:00:30Z" ∧
    Option.map Prod.fst (computeTimes 2024 5 15 (8 + 1/120) 1 (-4)) ≠
      some (claimedTimeStampAt 2024 5 15 (8 + 1/120) (-4)) := by
  refine ⟨?_, ?_, ?_⟩
  · with_unfolding_all decide
  · with_unfolding_all decide
  · with_unfolding_all decide

/-- Claim C2 (amended): whenever both `datetime` constructions succeed
(truncated hours in `[0, 24)`, a valid date) and the shifted instants
stay in the representable range, the payload's `timeStart` is the local
date-time at hour `int(h)` and minute `int((h % 1) * 60)` minus the
offset, formatted as an ISO-8601 UTC string, and `timeEnd` is the same
for `h + hours`; sub-minute fractions of the start hour are truncated,
and the offset is applied at whole-second resolution. -/
theorem C2_timestamps (y m d : ℤ) (h hrs o : ℚ)
    (hv : validYMD y m d)
    (hs1 : 0 ≤ pyTrunc h) (hs2 : pyTrunc h < 24)
    (he1 : 0 ≤ pyTrunc (h + hrs)) (he2 : pyTrunc (h + hrs) < 24)
    (hr1 : pyMinSecs ≤ civilSecs y m d h - offSecs o)
    (hr2 : civilSecs y m d h - offSecs o ≤ pyMaxSecs)
    (hr3 : pyMinSecs ≤ civilSecs y m d (h + hrs) - offSecs o)
    (hr4 : civilSecs y m d (h + hrs) - offSecs o ≤ pyMaxSecs) :
    computeTimes y m d h hrs o =
      some (formatTS (civilSecs y m d h - offSecs o),
        formatTS (civilSecs y m d (h + hrs) - offSecs o)) := by
  have hms := pyTrunc_frac_bounds h
  have hme := pyTrunc_frac_bounds (h + hrs)
  have hds : pyDatetimeSecs y m d (pyTrunc h) (pyTrunc (frac1 h * 60)) =
      some (civilSecs y m d h) := by
    unfold pyDatetimeSecs civilSecs
    rw [if_pos ⟨hv, hs1, hs2, hms.1, hms.2⟩]
  have hde : pyDatetimeSecs y m d (pyTrunc (h + hrs)) (pyTrunc (frac1 (h + hrs) * 60)) =
      some (civilSecs y m d (h + hrs)) := by
    unfold pyDatetimeSecs civilSecs
    rw [if_pos ⟨hv, he1, he2, hme.1, hme.2⟩]
  have hsub1 : pySubHours (civilSecs y m d h) o = some (civilSecs y m d h - offSecs o) := by
    unfold pySubHours
    rw [if_pos ⟨hr1, hr2⟩]
  have hsub2 : pySubHours (civilSecs y m d (h + hrs)) o =
      some (civilSecs y m d (h + hrs) - offSecs o) := by
    unfold pySubHours
    rw [if_pos ⟨hr3, hr4⟩]
  unfold computeTimes
  simp only [hds, hsub1, hde, hsub2, Option.map_some]
  rfl

/-- Witness for C2 (amended) at 08:30 local, 1 hour, offset -4 on
2024-05-15. -/
theorem C2_timestamps_witness :
    computeTimes 2024 5 15 (17/2) 1 (-4) =
      some (formatTS (civilSecs 2024 5 15 (17/2) - offSecs (-4)),
        formatTS (civilSecs 2024 5 15 (17/2 + 1) - offSecs (-4))) :=
  C2_timestamps 2024 5 15 (17/2) 1 (-4) (by with_unfolding_all decide)
    (by with_unfolding_all decide) (by with_unfolding_all decide)
    (by with_unfolding_all decide) (by with_unfolding_all decide)
    (by with_unfolding_all decide) (by with_unfolding_all decide)
    (by with_unfolding_all decide) (by with_unfolding_all decide)

/-! ## Claims C5, C6: response handling and failure conversion -/

instance {ε α : Type} [DecidableEq ε] [DecidableEq α] : DecidableEq (Except ε α) := fun x y =>
  match x, y with
  | Except.ok a, Except.ok b =>
      if h : a = b then isTrue (congrArg Except.ok h)
      else isFalse (fun hc => h (Except.ok.inj hc))
  | Except.error a, Except.error b =>
      if h : a = b then isTrue (congrArg Except.error h)
      else isFalse (fun hc => h (Except.error.inj hc))
  | Except.ok _, Except.error _ => isFalse (fun hc => Except.noConfusion hc)
  | Except.error _, Except.ok _ => isFalse (fun hc => Except.noConfusion hc)

/-- Helper: every response is handled as the fixed success pair, a
failure pair, or a raised error. -/
theorem handleResponse_cases (r : HttpResponse) :
    handleResponse r = Except.ok (true, "Entrada creada exitosamente") ∨
    (∃ m, handleResponse r = Except.ok (false, m)) ∨
    (∃ m, handleResponse r = Except.error m) := by
  unfold handleResponse
  by_cases hst : r.statusCode = 200 ∨ r.statusCode = 201
  · rw [if_pos hst]
    exact Or.inl rfl
  · rw [if_neg hst]
    cases (if r.text = "" then JsonOutcome.obj [] else r.parse) with
    | obj fields => exact Or.inr (Or.inl ⟨_, rfl⟩)
    | nonObj err => exact Or.inr (Or.inr ⟨_, rfl⟩)
    | malformed err => exact Or.inr (Or.inr ⟨_, rfl⟩)

/-- A complete configuration used to evaluate the POST at concrete
inputs. -/
def cfg0 : ConnectWiseConfig :=
  ⟨false, "Intwo", "pub", "priv", "connect.intwo.cloud", "amora", "Remote-Standard",
    "DoNotBill", "cid-1", -4⟩

/-- A valid concrete entry: ticket 123, 1 hour on 2024-05-15. -/
def entry0 : TimeEntry := ⟨"123", 1, "desc", 2024, 5, 15, false, true, false, false, false, false⟩

/-- A 500 response whose body is HTML, not JSON, so `response.json()`
raises. -/
def resp500Html : HttpResponse :=
  ⟨500, "<html>oops</html>", JsonOutcome.malformed "Expecting value: line 1 column 1 (char 0)"⟩

/-- Claim C5 (counterexample): on a non-2xx response whose body is not
JSON, the returned message is the JSON parse error caught by the outer
`except`, not a message extracted from the `message` field or the raw
response text. -/
theorem C5_response_cex :
    post_time_entry cfg0 entry0 8 (NetOutcome.response resp500Html) =
      (false, "Error: Expecting value: line 1 column 1 (char 0)") ∧
    (("Error: Expecting value: line 1 column 1 (char 0)" : String) ≠
      "Error 500: <html>oops</html>") := by
  constructor
  · with_unfolding_all decide
  · with_unfolding_all decide

/-- Claim C5 (amended): given a response (the payload was built, so the
request was sent), `post_time_entry` succeeds exactly on status 200 or
201; on any other status, if the body is empty or parses as a JSON
object, the failure message is `Error {code}: ` followed by the object's
`message` field, or by the raw text when that field is absent; a
non-empty body that does not parse as a JSON object instead yields
`Error: ` followed by the parse error. -/
theorem C5_response_handling (cfg : ConnectWiseConfig) (e : TimeEntry) (sh : ℚ)
    (r : HttpResponse) (hb : (buildPayload cfg e sh).isOk = true) :
    ((post_time_entry cfg e sh (NetOutcome.response r)).1 = true ↔
      (r.statusCode = 200 ∨ r.statusCode = 201)) ∧
    (∀ fields, ¬(r.statusCode = 200 ∨ r.statusCode = 201) →
      (if r.text = "" then JsonOutcome.obj [] else r.parse) = JsonOutcome.obj fields →
      post_time_entry cfg e sh (NetOutcome.response r) =
        (false, "Error " ++ toString r.statusCode ++ ": " ++
          ((List.lookup "message" fields).getD r.text))) ∧
    (∀ err, ¬(r.statusCode = 200 ∨ r.statusCode = 201) → r.text ≠ "" →
      (r.parse = JsonOutcome.nonObj err ∨ r.parse = JsonOutcome.malformed err) →
      post_time_entry cfg e sh (NetOutcome.response r) = (false, "Error: " ++ err)) := by
  obtain ⟨p, hp⟩ : ∃ p, buildPayload cfg e sh = Except.ok p := by
    cases hcase : buildPayload cfg e sh with
    | ok p => exact ⟨p, rfl⟩
    | error msg => rw [hcase] at hb; simp [Except.isOk, Except.toBool] at hb
  have hpost : post_time_entry cfg e sh (NetOutcome.response r) =
      (match handleResponse r with
        | Except.ok q => q
        | Except.error msg => (false, "Error: " ++ msg)) := by
    unfold post_time_entry postTimeEntryBody
    rw [hp]
  refine ⟨?_, ?_, ?_⟩
  · rw [hpost]
    unfold handleResponse
    by_cases hst : r.statusCode = 200 ∨ r.statusCode = 201
    · rw [if_pos hst]
      simpa using hst
    · rw [if_neg hst]
      cases hparse : (if r.text = "" then JsonOutcome.obj [] else r.parse) with
      | obj fields => simpa using hst
      | nonObj err => simpa using hst
      | malformed err => simpa using hst
  · intro fields hst hparse
    rw [hpost]
    unfold handleResponse
    rw [if_neg hst, hparse]
  · intro err hst htext hparse
    rw [hpost]
    unfold handleResponse
    rw [if_neg hst, if_neg htext]
    rcases hparse with hparse | hparse <;> rw [hparse]

/-- A 404 response with a JSON object body carrying a `message` field. -/
def resp404 : HttpResponse :=
  ⟨404, "x", JsonOutcome.obj [("message", "Not found")]⟩

/-- Witness for C5 (amended) at a concrete 404 response. -/
theorem C5_response_handling_witness :
    post_time_entry cfg0 entry0 8 (NetOutcome.response resp404) =
      (false, "Error " ++ toString (404 : ℤ) ++ ": " ++
        ((List.lookup "message" [("message", "Not found")]).getD "x")) :=
  (C5_response_handling cfg0 entry0 8 resp404
      (by with_unfolding_all decide)).2.1 [("message", "Not found")]
    (by with_unfolding_all decide) (by with_unfolding_all decide)

/-- Claim C6: every failure mode is converted into a `(success, message)`
pair rather than propagating.  First conjunct: `post_time_entry` is total
and only ever returns the success pair or a `false` pair.  Second: a
transport error surfaces as `(False, "Error: " + str(e))`.  Third: a
failure while building the payload (invalid ticket id, out-of-range
`datetime`) surfaces the same way for every network outcome.  Fourth:
`decrypt` on undecryptable input returns `""` instead of raising. -/
theorem C6_failures_converted :
    (∀ (cfg : ConnectWiseConfig) (e : TimeEntry) (sh : ℚ) (net : NetOutcome),
      post_time_entry cfg e sh net = (true, "Entrada creada exitosamente") ∨
        (post_time_entry cfg e sh net).1 = false) ∧
    (∀ (cfg : ConnectWiseConfig) (e : TimeEntry) (sh : ℚ) (msg : String),
      (buildPayload cfg e sh).isOk = true →
      post_time_entry cfg e sh (NetOutcome.netError msg) = (false, "Error: " ++ msg)) ∧
    (∀ (cfg : ConnectWiseConfig) (e : TimeEntry) (sh : ℚ) (net : NetOutcome) (msg : String),
      buildPayload cfg e sh = Except.error msg →
      post_time_entry cfg e sh net = (false, "Error: " ++ msg)) ∧
    (∀ (salt : List ℕ) (f : FernetModel) (s : String),
      f.decryptTok s = none → SecurityManager.decrypt ⟨salt, some f⟩ s = "") := by
  refine ⟨?_, ?_, ?_, ?_⟩
  · intro cfg e sh net
    cases hbp : buildPayload cfg e sh with
    | error msg =>
        have hpost : post_time_entry cfg e sh net = (false, "Error: " ++ msg) := by
          unfold post_time_entry postTimeEntryBody
          rw [hbp]
        rw [hpost]
        exact Or.inr rfl
    | ok p =>
        cases net with
        | netError msg =>
            have hpost : post_time_entry cfg e sh (NetOutcome.netError msg) =
                (false, "Error: " ++ msg) := by
              unfold post_time_entry postTimeEntryBody
              rw [hbp]
            rw [hpost]
            exact Or.inr rfl
        | response r =>
            have hpost : post_time_entry cfg e sh (NetOutcome.response r) =
                (match handleResponse r with
                  | Except.ok q => q
                  | Except.error m => (false, "Error: " ++ m)) := by
              unfold post_time_entry postTimeEntryBody
              rw [hbp]
            rw [hpost]
            rcases handleResponse_cases r with hc | ⟨m, hc⟩ | ⟨m, hc⟩ <;> rw [hc]
            · exact Or.inl rfl
            · exact Or.inr rfl
            · exact Or.inr rfl
  · intro cfg e sh msg hb
    obtain ⟨p, hp⟩ : ∃ p, buildPayload cfg e sh = Except.ok p := by
      cases hcase : buildPayload cfg e sh with
      | ok p => exact ⟨p, rfl⟩
      | error m => rw [hcase] at hb; simp [Except.isOk, Except.toBool] at hb
    unfold post_time_entry postTimeEntryBody
    rw [hp]
  · intro cfg e sh net msg herr
    unfold post_time_entry postTimeEntryBody
    rw [herr]
  · intro salt f s hdec
    unfold SecurityManager.decrypt
    by_cases hs : s = ""
    · subst hs
      simp
    · simp only
      rw [if_neg hs, hdec]

set_option maxRecDepth 8000 in
/-- Witness for C6 at concrete failing inputs: a raised transport
timeout, a non-numeric ticket id, and an undecryptable credential
string. -/
theorem C6_failures_converted_witness :
    post_time_entry cfg0 entry0 8 (NetOutcome.netError "timeout") =
      (false, "Error: " ++ "timeout") ∧
    post_time_entry cfg0 ⟨"abc", 1, "d", 2024, 5, 15, false, true, false, false, false, false⟩ 8
        (NetOutcome.netError "unused") =
      (false, "Error: " ++ "invalid literal for int() with base 10: abc") ∧
    SecurityManager.decrypt ⟨[], some F0⟩ "xx" = "" := by
  refine ⟨?_, ?_, ?_⟩
  · exact C6_failures_converted.2.1 cfg0 entry0 8 "timeout" (by with_unfolding_all decide)
  · exact C6_failures_converted.2.2.1 cfg0
      ⟨"abc", 1, "d", 2024, 5, 15, false, true, false, false, false, false⟩ 8
      (NetOutcome.netError "unused") "invalid literal for int() with base 10: abc"
      (by with_unfolding_all decide)
  · exact C6_failures_converted.2.2.2 [] F0 "xx" (by with_unfolding_all decide)

/-! ## Claim C8: request headers -/

/-- Claim C8: the request headers carry a Basic Authorization header whose
value is the base64 encoding of `"<company_id>+<public_key>:<private_key>"`,
and a `clientId` header equal to the configured client identifier. -/
theorem C8_headers (cfg : ConnectWiseConfig) :
    List.lookup "Authorization" (ConnectWiseAPI.get_headers cfg) =
      some ("Basic " ++ b64encode (utf8Bytes
        (cfg.company_id ++ "+" ++ cfg.public_key ++ ":" ++ cfg.private_key))) ∧
    List.lookup "clientId" (ConnectWiseAPI.get_headers cfg) = some cfg.client_id := by
  have h1 : ("Authorization" == "Authorization") = true := by decide
  have h2 : ("clientId" == "Authorization") = false := by decide
  have h3 : ("clientId" == "Content-Type") = false := by decide
  have h4 : ("clientId" == "clientId") = true := by decide
  constructor
  · simp [ConnectWiseAPI.get_headers, ConnectWiseConfig.get_auth_header, List.lookup, h1]
  · simp [ConnectWiseAPI.get_headers, List.lookup, h2, h3, h4]

/-! ## Claim C9: unlock accepts every PIN -/

/-- Claim C9: with a valid hex salt in storage, `unlock` succeeds and
clears the lock for every PIN string — the key derivation and Fernet
construction cannot fail — and a PIN whose derived cipher cannot decrypt
the stored credential only shows up as an empty decrypted credential
after `load`, never as a failed unlock. -/
theorem C9_unlock_any_pin (derive : String → List ℕ → FernetModel) (storage : Storage)
    (cfg : ConnectWiseConfig) (sec : SecurityManager) (pin : String) (fresh : List ℕ)
    (sh : String) (salt : List ℕ)
    (h1 : getStr storage "security_salt" = some sh)
    (h2 : sh ≠ "")
    (h3 : hexParse sh = some salt) :
    (ConnectWiseConfig.unlock derive storage cfg sec pin fresh).1 = true ∧
    (ConnectWiseConfig.unlock derive storage cfg sec pin fresh).2.1.is_locked = false ∧
    (∀ enc, getStr storage "public_key" = some enc → enc ≠ "" →
      (derive pin salt).decryptTok enc = none →
      (ConnectWiseConfig.unlock derive storage cfg sec pin fresh).2.1.public_key = "") := by
  have hinit : SecurityManager.initPin derive sec pin (getStr storage "security_salt") fresh =
      (true, { salt := salt, fernet := some (derive pin salt) }) := by
    rw [h1]
    simp only [SecurityManager.initPin]
    rw [if_neg h2, h3]
  have hu : ConnectWiseConfig.unlock derive storage cfg sec pin fresh =
      (true,
        ConnectWiseConfig.load storage { salt := salt, fernet := some (derive pin salt) } false,
        { salt := salt, fernet := some (derive pin salt) }) := by
    simp only [ConnectWiseConfig.unlock]
    rw [hinit]
  refine ⟨by rw [hu], by rw [hu]; rfl, ?_⟩
  intro enc henc hne hdec
  have hpo : pyOr (getStr storage "public_key") "" = enc := by
    rw [henc]
    show (if enc = "" then "" else enc) = enc
    rw [if_neg hne]
  rw [hu]
  show SecurityManager.decrypt ⟨salt, some (derive pin salt)⟩
    (pyOr (getStr storage "public_key") "") = ""
  rw [hpo]
  show (if enc = "" then enc
    else match (derive pin salt).decryptTok enc with
      | some r => r
      | none => "") = ""
  rw [if_neg hne, hdec]

/-- A key-derivation model: every PIN and salt yield the concrete
cipher. -/
def derive0 : String → List ℕ → FernetModel := fun _ _ => F0

/-- Storage holding a valid hex salt and a stored (encrypted) public key
that the derived cipher cannot decrypt. -/
def storage9 : Storage :=
  [("security_salt", StoredVal.s "00ff"), ("public_key", StoredVal.s "xx")]

/-- A locked configuration with empty credentials. -/
def cfgLocked : ConnectWiseConfig :=
  ⟨true, "Intwo", "", "", "connect.intwo.cloud", "", "Remote-Standard", "DoNotBill", "c", -4⟩

set_option maxRecDepth 8000 in
/-- Witness for C9 at a concrete storage and an arbitrary PIN string:
unlock succeeds and the undecryptable credential loads as `""`. -/
theorem C9_unlock_any_pin_witness :
    (ConnectWiseConfig.unlock derive0 storage9 cfgLocked ⟨[], none⟩ "not-the-pin" []).2.1.public_key
      = "" :=
  (C9_unlock_any_pin derive0 storage9 cfgLocked ⟨[], none⟩ "not-the-pin" [] "00ff" [0, 255]
    (by with_unfolding_all decide) (by with_unfolding_all decide)
    (by with_unfolding_all decide)).2.2 "xx" (by with_unfolding_all decide)
    (by with_unfolding_all decide) (by with_unfolding_all decide)

/-! ## Claim C10: a locked save never writes the credential keys -/

/-- Claim C10: when the configuration is locked, `save` leaves the stored
`public_key` and `private_key` values exactly as they were, while still
writing every other setting from the in-memory configuration. -/
theorem C10_locked_save (cfg : ConnectWiseConfig) (sec : SecurityManager) (st : Storage)
    (hl : cfg.is_locked = true) :
    List.lookup "public_key" (ConnectWiseConfig.save cfg sec st) =
      List.lookup "public_key" st ∧
    List.lookup "private_key" (ConnectWiseConfig.save cfg sec st) =
      List.lookup "private_key" st ∧
    List.lookup "company_id" (ConnectWiseConfig.save cfg sec st) =
      some (StoredVal.s cfg.company_id) ∧
    List.lookup "site_url" (ConnectWiseConfig.save cfg sec st) =
      some (StoredVal.s cfg.site_url) ∧
    List.lookup "member_id" (ConnectWiseConfig.save cfg sec st) =
      some (StoredVal.s cfg.member_id) ∧
    List.lookup "work_type" (ConnectWiseConfig.save cfg sec st) =
      some (StoredVal.s cfg.work_type) ∧
    List.lookup "billable_option" (ConnectWiseConfig.save cfg sec st) =
      some (StoredVal.s cfg.billable_option) ∧
    List.lookup "client_id" (ConnectWiseConfig.save cfg sec st) =
      some (StoredVal.s cfg.client_id) ∧
    List.lookup "timezone_offset" (ConnectWiseConfig.save cfg sec st) =
      some (StoredVal.f cfg.timezone_offset) := by
  have hform : ConnectWiseConfig.save cfg sec st =
      setKey (setKey (setKey (setKey (setKey (setKey (setKey
        (if sec.salt ≠ [] then
          setKey (setKey st "company_id" (StoredVal.s cfg.company_id)) "security_salt"
            (StoredVal.s (hexStr sec.salt))
        else setKey st "company_id" (StoredVal.s cfg.company_id))
        "site_url" (StoredVal.s cfg.site_url))
        "member_id" (StoredVal.s cfg.member_id))
        "work_type" (StoredVal.s cfg.work_type))
        "billable_option" (StoredVal.s cfg.billable_option))
        "billable_option" (StoredVal.s cfg.billable_option))
        "client_id" (StoredVal.s cfg.client_id))
        "timezone_offset" (StoredVal.f cfg.timezone_offset) := by
    simp only [ConnectWiseConfig.save]
    rw [if_pos hl]
  have hsaltkey : ∀ (k : String) (st' : Storage), k ≠ "security_salt" →
      List.lookup k (if sec.salt ≠ [] then
          setKey st' "security_salt" (StoredVal.s (hexStr sec.salt)) else st') =
        List.lookup k st' := by
    intro k st' hk
    by_cases hs : sec.salt = []
    · rw [if_neg (fun hcon => hcon hs)]
    · rw [if_pos hs]
      exact lookup_setKey_ne _ _ _ _ hk
  refine ⟨?_, ?_, ?_, ?_, ?_, ?_, ?_, ?_, ?_⟩
  · rw [hform,
      lookup_setKey_ne _ _ "timezone_offset" _ (by decide),
      lookup_setKey_ne _ _ "client_id" _ (by decide),
      lookup_setKey_ne _ _ "billable_option" _ (by decide),
      lookup_setKey_ne _ _ "billable_option" _ (by decide),
      lookup_setKey_ne _ _ "work_type" _ (by decide),
      lookup_setKey_ne _ _ "member_id" _ (by decide),
      lookup_setKey_ne _ _ "site_url" _ (by decide),
      hsaltkey _ _ (by decide),
      lookup_setKey_ne _ _ "company_id" _ (by decide)]
  · rw [hform,
      lookup_setKey_ne _ _ "timezone_offset" _ (by decide),
      lookup_setKey_ne _ _ "client_id" _ (by decide),
      lookup_setKey_ne _ _ "billable_option" _ (by decide),
      lookup_setKey_ne _ _ "billable_option" _ (by decide),
      lookup_setKey_ne _ _ "work_type" _ (by decide),
      lookup_setKey_ne _ _ "member_id" _ (by decide),
      lookup_setKey_ne _ _ "site_url" _ (by decide),
      hsaltkey _ _ (by decide),
      lookup_setKey_ne _ _ "company_id" _ (by decide)]
  · rw [hform,
      lookup_setKey_ne _ _ "timezone_offset" _ (by decide),
      lookup_setKey_ne _ _ "client_id" _ (by decide),
      lookup_setKey_ne _ _ "billable_option" _ (by decide),
      lookup_setKey_ne _ _ "billable_option" _ (by decide),
      lookup_setKey_ne _ _ "work_type" _ (by decide),
      lookup_setKey_ne _ _ "member_id" _ (by decide),
      lookup_setKey_ne _ _ "site_url" _ (by decide),
      hsaltkey _ _ (by decide)]
    exact lookup_setKey_self _ _ _
  · rw [hform,
      lookup_setKey_ne _ _ "timezone_offset" _ (by decide),
      lookup_setKey_ne _ _ "client_id" _ (by decide),
      lookup_setKey_ne _ _ "billable_option" _ (by decide),
      lookup_setKey_ne _ _ "billable_option" _ (by decide),
      lookup_setKey_ne _ _ "work_type" _ (by decide),
      lookup_setKey_ne _ _ "member_id" _ (by decide)]
    exact lookup_setKey_self _ _ _
  · rw [hform,
      lookup_setKey_ne _ _ "timezone_offset" _ (by decide),
      lookup_setKey_ne _ _ "client_id" _ (by decide),
      lookup_setKey_ne _ _ "billable_option" _ (by decide),
      lookup_setKey_ne _ _ "billable_option" _ (by decide),
      lookup_setKey_ne _ _ "work_type" _ (by decide)]
    exact lookup_setKey_self _ _ _
  · rw [hform,
      lookup_setKey_ne _ _ "timezone_offset" _ (by decide),
      lookup_setKey_ne _ _ "client_id" _ (by decide),
      lookup_setKey_ne _ _ "billable_option" _ (by decide),
      lookup_setKey_ne _ _ "billable_option" _ (by decide)]
    exact lookup_setKey_self _ _ _
  · rw [hform,
      lookup_setKey_ne _ _ "timezone_offset" _ (by decide),
      lookup_setKey_ne _ _ "client_id" _ (by decide)]
    exact lookup_setKey_self _ _ _
  · rw [hform, lookup_setKey_ne _ _ "timezone_offset" _ (by decide)]
    exact lookup_setKey_self _ _ _
  · rw [hform]
    exact lookup_setKey_self _ _ _

/-- Storage holding previously encrypted credentials. -/
def stCreds : Storage :=
  [("public_key", StoredVal.s "ENCPUB"), ("private_key", StoredVal.s "ENCPRI")]

/-- Witness for C10: a locked save over stored encrypted credentials
leaves the stored `public_key` binding unchanged. -/
theorem C10_locked_save_witness :
    List.lookup "public_key" (ConnectWiseConfig.save cfgLocked ⟨[], none⟩ stCreds) =
      List.lookup "public_key" stCreds :=
  (C10_locked_save cfgLocked ⟨[], none⟩ stCreds (by with_unfolding_all decide)).1
